import Mathlib

/-!
Verification of the financial core of the real-estate rent calculator
(`calculator.js`).

The computational core of the program consists of the cash-flow projector
`calculateNPV`, the bisection search `findOptimalRent`, the derived metrics
`calculatePaybackPeriod` and `calculateAnnualReturn`, and the validating
entry point `calculateOptimalRent`.  The JavaScript numbers of the source
are modelled as exact rationals (`ℚ`); the three year-count parameters
(`contractDuration`, `gracePeriod`, `rentIncreaseInterval`), which the
data model requires to be non-negative integers, are modelled as `ℕ`.
All definitions below mirror the control flow of the source line by line.
-/

namespace RentCalculator

/-- The input record consumed by the financial core: the fields of
`getInputValues` that the NPV math reads (`landArea`, `buildingFactor` and
`constructionCost` are never read by the core and are omitted). -/
structure LeaseParameters where
  contractDuration : Nat
  gracePeriod : Nat
  rentIncreaseInterval : Nat
  rentIncreaseRate : ℚ
  capitalizationRate : ℚ
  totalDevelopmentCost : ℚ

/-- One row of `cashFlowData` as pushed by `calculateNPV`. -/
structure YearlyCashFlow where
  year : Nat
  rent : ℚ
  discountedCashFlow : ℚ
  cumulativeCashFlow : ℚ

/-- The mutable loop state of `calculateNPV`: the variables
`currentRent`, `npv`, `cumulativeCashFlow` and `cashFlowData`. -/
structure NPVState where
  currentRent : ℚ
  npv : ℚ
  cumulativeCashFlow : ℚ
  cashFlowData : List YearlyCashFlow

/-- One iteration of the `for (let year = 1; ...)` loop body of
`calculateNPV`: possibly escalate the running rent, charge it when past the
grace period, discount it, and push the row. -/
def npvStep (inputs : LeaseParameters) (year : Nat) (s : NPVState) : NPVState :=
  let currentRent' :=
    if inputs.gracePeriod < year ∧
        (year - inputs.gracePeriod - 1) % inputs.rentIncreaseInterval = 0 ∧
        inputs.gracePeriod + 1 < year then
      s.currentRent * (1 + inputs.rentIncreaseRate / 100)
    else s.currentRent
  let yearlyRent := if inputs.gracePeriod < year then currentRent' else 0
  let discountedCashFlow := yearlyRent / (1 + inputs.capitalizationRate / 100) ^ year
  { currentRent := currentRent'
    npv := s.npv + discountedCashFlow
    cumulativeCashFlow := s.cumulativeCashFlow + discountedCashFlow
    cashFlowData := s.cashFlowData ++
      [{ year := year, rent := yearlyRent,
         discountedCashFlow := discountedCashFlow,
         cumulativeCashFlow := s.cumulativeCashFlow + discountedCashFlow }] }

/-- The year loop of `calculateNPV`, iterating `npvStep` over `n` successive
years starting at `year`. -/
def runYears (inputs : LeaseParameters) : Nat → Nat → NPVState → NPVState
  | _, 0, s => s
  | year, n + 1, s => runYears inputs (year + 1) n (npvStep inputs year s)

/-- The loop state of `calculateNPV` just before the first iteration. -/
def initialState (annualRent : ℚ) (inputs : LeaseParameters) : NPVState :=
  { currentRent := annualRent
    npv := -inputs.totalDevelopmentCost
    cumulativeCashFlow := -inputs.totalDevelopmentCost
    cashFlowData := [] }

/-- The pair `{ npv, cashFlowData }` returned by `calculateNPV`. -/
structure ProjectionResult where
  npv : ℚ
  cashFlowData : List YearlyCashFlow

/-- Source function `calculateNPV(annualRent, inputs)`: run the year loop
from year 1 through `contractDuration` and return `{ npv, cashFlowData }`. -/
def calculateNPV (annualRent : ℚ) (inputs : LeaseParameters) : ProjectionResult :=
  let s := runYears inputs 1 inputs.contractDuration (initialState annualRent inputs)
  { npv := s.npv, cashFlowData := s.cashFlowData }

/-- The `while (high - low > 1000 && iterations < maxIterations)` loop of
`findOptimalRent`; the first argument is the number of remaining
iterations. -/
def bisectGo (inputs : LeaseParameters) : Nat → Nat → Nat → Nat → Nat
  | 0, _, _, optimalRent => optimalRent
  | iters + 1, low, high, optimalRent =>
    if 1000 < high - low then
      let mid := (low + high) / 2
      if 0 ≤ (calculateNPV (mid : ℚ) inputs).npv then
        bisectGo inputs iters mid high mid
      else
        bisectGo inputs iters low mid optimalRent
    else optimalRent

/-- Source function `findOptimalRent(inputs)`: bisection over
`[0, 50000000]` with tolerance 1000 and at most 50 iterations, starting
from `optimalRent = 0`. -/
def findOptimalRent (inputs : LeaseParameters) : Nat :=
  bisectGo inputs 50 0 50000000 0

/-- The indexed scan of `calculatePaybackPeriod`: `i` is the number of rows
already inspected; on the first non-negative cumulative cash flow return
`i + 1`, and on exhaustion return the number of rows. -/
def paybackGo : List YearlyCashFlow → Nat → Nat
  | [], i => i
  | flow :: rest, i =>
    if 0 ≤ flow.cumulativeCashFlow then i + 1 else paybackGo rest (i + 1)

/-- Source function `calculatePaybackPeriod(cashFlowData)`. -/
def calculatePaybackPeriod (cashFlowData : List YearlyCashFlow) : Nat :=
  paybackGo cashFlowData 0

/-- Source function `calculateAnnualReturn(optimalRent, totalDevelopmentCost)`. -/
def calculateAnnualReturn (optimalRent totalDevelopmentCost : ℚ) : ℚ :=
  if totalDevelopmentCost = 0 then 0
  else optimalRent / totalDevelopmentCost * 100

/-- The record of results that `calculateOptimalRent` hands to the
presentation layer on success. -/
structure CalculationResults where
  optimalRent : Nat
  npv : ℚ
  cashFlowData : List YearlyCashFlow
  paybackPeriod : Nat
  annualReturn : ℚ

/-- Source function `calculateOptimalRent()`, with the DOM rendering
abstracted away: validate the inputs (rejections modelled as `none`), then
search for the optimal rent, re-project at it and assemble the results. -/
def calculateOptimalRent (inputs : LeaseParameters) : Option CalculationResults :=
  if inputs.totalDevelopmentCost ≤ 0 then none
  else if inputs.contractDuration ≤ 0 then none
  else
    let optimalRent := findOptimalRent inputs
    let r := calculateNPV (optimalRent : ℚ) inputs
    some { optimalRent := optimalRent
           npv := r.npv
           cashFlowData := r.cashFlowData
           paybackPeriod := calculatePaybackPeriod r.cashFlowData
           annualReturn := calculateAnnualReturn (optimalRent : ℚ) inputs.totalDevelopmentCost }

/-- The parameter set of Scenario A of the specification (the default
values of `getInputValues`). -/
def scenarioA : LeaseParameters :=
  { contractDuration := 20, gracePeriod := 2, rentIncreaseInterval := 5,
    rentIncreaseRate := 10, capitalizationRate := 7, totalDevelopmentCost := 93480000 }

/-- Property predicate: every row's cumulative cash flow extends the
previous running total (seeded at `c`) by that row's discounted cash
flow. -/
def cumConsistent : ℚ → List YearlyCashFlow → Prop
  | _, [] => True
  | c, flow :: rest =>
    flow.cumulativeCashFlow = c + flow.discountedCashFlow ∧
      cumConsistent flow.cumulativeCashFlow rest

/-- Property function: the running cumulative total after a list of rows,
starting from `c`. -/
def endCum (c : ℚ) : List YearlyCashFlow → ℚ
  | [] => c
  | flow :: rest => endCum flow.cumulativeCashFlow rest

/-- The row pushed onto `cashFlowData` by one loop iteration. -/
def rowOf (inputs : LeaseParameters) (year : Nat) (s : NPVState) : YearlyCashFlow :=
  let currentRent' :=
    if inputs.gracePeriod < year ∧
        (year - inputs.gracePeriod - 1) % inputs.rentIncreaseInterval = 0 ∧
        inputs.gracePeriod + 1 < year then
      s.currentRent * (1 + inputs.rentIncreaseRate / 100)
    else s.currentRent
  let yearlyRent := if inputs.gracePeriod < year then currentRent' else 0
  let discountedCashFlow := yearlyRent / (1 + inputs.capitalizationRate / 100) ^ year
  { year := year, rent := yearlyRent,
    discountedCashFlow := discountedCashFlow,
    cumulativeCashFlow := s.cumulativeCashFlow + discountedCashFlow }

/-- The trace of the bisection of `findOptimalRent` in the regime where
every probed midpoint is feasible: `low` and the recorded rent climb
towards the fixed upper bound 50,000,000 while `high` never moves. -/
def climbGo : Nat → Nat → Nat → Nat
  | 0, _, opt => opt
  | f + 1, low, opt =>
    if 1000 < 50000000 - low then
      climbGo f ((low + 50000000) / 2) ((low + 50000000) / 2)
    else opt

/-- The rent field of the row for 1-indexed year `y` of a projection
result, or `0` when `y` is out of range. -/
def rentAt (res : ProjectionResult) (y : Nat) : ℚ :=
  ((res.cashFlowData[y - 1]?).map YearlyCashFlow.rent).getD 0

/-- A degenerate parameter set whose grace period covers the whole
contract: 3 contract years inside a 5-year grace period. -/
def scenarioB : LeaseParameters :=
  { contractDuration := 3, gracePeriod := 5, rentIncreaseInterval := 5,
    rentIncreaseRate := 10, capitalizationRate := 7, totalDevelopmentCost := 100 }

/-- A parameter set with a zero contract duration, rejected by the
validation of `calculateOptimalRent`. -/
def invalidParams : LeaseParameters :=
  { contractDuration := 0, gracePeriod := 2, rentIncreaseInterval := 5,
    rentIncreaseRate := 10, capitalizationRate := 7, totalDevelopmentCost := 100 }

theorem npvStep_data (inputs : LeaseParameters) (year : Nat) (s : NPVState) :
    (npvStep inputs year s).cashFlowData = s.cashFlowData ++ [rowOf inputs year s] := rfl

theorem rowOf_year (inputs : LeaseParameters) (year : Nat) (s : NPVState) :
    (rowOf inputs year s).year = year := rfl

theorem rowOf_rent (inputs : LeaseParameters) (year : Nat) (s : NPVState) :
    (rowOf inputs year s).rent =
      if inputs.gracePeriod < year then (npvStep inputs year s).currentRent else 0 := rfl

theorem rowOf_dcf (inputs : LeaseParameters) (year : Nat) (s : NPVState) :
    (rowOf inputs year s).discountedCashFlow =
      (rowOf inputs year s).rent / (1 + inputs.capitalizationRate / 100) ^ year := rfl

theorem rowOf_cum (inputs : LeaseParameters) (year : Nat) (s : NPVState) :
    (rowOf inputs year s).cumulativeCashFlow =
      s.cumulativeCashFlow + (rowOf inputs year s).discountedCashFlow := rfl

theorem npvStep_npv (inputs : LeaseParameters) (year : Nat) (s : NPVState) :
    (npvStep inputs year s).npv = s.npv + (rowOf inputs year s).discountedCashFlow := rfl

theorem npvStep_cum (inputs : LeaseParameters) (year : Nat) (s : NPVState) :
    (npvStep inputs year s).cumulativeCashFlow =
      s.cumulativeCashFlow + (rowOf inputs year s).discountedCashFlow := rfl

theorem runYears_succ (inputs : LeaseParameters) (year n : Nat) (s : NPVState) :
    runYears inputs year (n + 1) s =
      npvStep inputs (year + n) (runYears inputs year n s) := by
  induction n generalizing year s with
  | zero => rfl
  | succ n ih =>
    show runYears inputs (year + 1) (n + 1) (npvStep inputs year s) = _
    rw [ih]
    have hy : year + 1 + n = year + (n + 1) := by omega
    rw [hy]
    rfl

theorem runYears_add (inputs : LeaseParameters) (a b year : Nat) (s : NPVState) :
    runYears inputs year (a + b) s =
      runYears inputs (year + a) b (runYears inputs year a s) := by
  induction a generalizing year s with
  | zero => simp [runYears]
  | succ a ih =>
    have h : a + 1 + b = a + b + 1 := by omega
    rw [h]
    show runYears inputs (year + 1) (a + b) (npvStep inputs year s) = _
    rw [ih]
    have h2 : year + 1 + a = year + (a + 1) := by omega
    rw [h2]
    rfl

theorem runYears_length (inputs : LeaseParameters) :
    ∀ (n year : Nat) (s : NPVState),
      (runYears inputs year n s).cashFlowData.length = s.cashFlowData.length + n := by
  intro n
  induction n with
  | zero => intro year s; rfl
  | succ n ih =>
    intro year s
    show (runYears inputs (year + 1) n (npvStep inputs year s)).cashFlowData.length = _
    rw [ih, npvStep_data]
    simp
    omega

theorem runYears_data_ext (inputs : LeaseParameters) :
    ∀ (n year : Nat) (s : NPVState),
      ∃ t, (runYears inputs year n s).cashFlowData = s.cashFlowData ++ t := by
  intro n
  induction n with
  | zero => intro year s; exact ⟨[], by simp [runYears]⟩
  | succ n ih =>
    intro year s
    obtain ⟨t, ht⟩ := ih (year + 1) (npvStep inputs year s)
    refine ⟨[rowOf inputs year s] ++ t, ?_⟩
    show (runYears inputs (year + 1) n (npvStep inputs year s)).cashFlowData = _
    rw [ht, npvStep_data, List.append_assoc]

/-- Incrementing the dividend bumps the quotient exactly on multiples. -/
theorem div_step (t i : Nat) (ht : 0 < t) :
    t / i = (t - 1) / i + if t % i = 0 then 1 else 0 := by
  rcases i with _ | j
  · simp [Nat.mod_zero, ht.ne']
  · obtain ⟨u, rfl⟩ : ∃ u, t = u + 1 := ⟨t - 1, by omega⟩
    rw [Nat.succ_div]
    have hiff : (j + 1) ∣ (u + 1) ↔ (u + 1) % (j + 1) = 0 :=
      Nat.dvd_iff_mod_eq_zero
    simp only [Nat.add_sub_cancel]
    congr 1
    rw [if_congr hiff rfl rfl]

/-- The running rent after the first `m` years equals the base rent scaled
by the escalation factor raised to `(m - grace - 1) / interval`. -/
theorem currentRent_runYears (inputs : LeaseParameters) :
    ∀ (m : Nat) (s : NPVState),
      (runYears inputs 1 m s).currentRent =
        s.currentRent * (1 + inputs.rentIncreaseRate / 100) ^
          ((m - inputs.gracePeriod - 1) / inputs.rentIncreaseInterval) := by
  intro m
  induction m with
  | zero =>
    intro s
    simp [runYears, Nat.zero_sub]
  | succ m ih =>
    intro s
    rw [runYears_succ]
    have ht : 1 + m - inputs.gracePeriod - 1 = m - inputs.gracePeriod := by omega
    have hcond : (inputs.gracePeriod < 1 + m ∧
        (1 + m - inputs.gracePeriod - 1) % inputs.rentIncreaseInterval = 0 ∧
        inputs.gracePeriod + 1 < 1 + m) ↔
        (inputs.gracePeriod < m ∧
          (m - inputs.gracePeriod) % inputs.rentIncreaseInterval = 0) := by
      rw [ht]
      constructor
      · rintro ⟨_, hb, hcc⟩; exact ⟨by omega, hb⟩
      · rintro ⟨ha, hb⟩; exact ⟨by omega, hb, by omega⟩
    show (if inputs.gracePeriod < 1 + m ∧
        (1 + m - inputs.gracePeriod - 1) % inputs.rentIncreaseInterval = 0 ∧
        inputs.gracePeriod + 1 < 1 + m then
          (runYears inputs 1 m s).currentRent * (1 + inputs.rentIncreaseRate / 100)
        else (runYears inputs 1 m s).currentRent) = _
    rw [if_congr hcond rfl rfl, ih]
    by_cases hsem : inputs.gracePeriod < m ∧
        (m - inputs.gracePeriod) % inputs.rentIncreaseInterval = 0
    · rw [if_pos hsem]
      obtain ⟨hg, hmod⟩ := hsem
      have h0 : 0 < m - inputs.gracePeriod := by omega
      have hstep := div_step (m - inputs.gracePeriod) inputs.rentIncreaseInterval h0
      rw [hmod, if_pos rfl] at hstep
      have hnum : m + 1 - inputs.gracePeriod - 1 = m - inputs.gracePeriod := by omega
      have hnum2 : m - inputs.gracePeriod - 1 = m - inputs.gracePeriod - 1 := rfl
      rw [hnum, hstep]
      rw [pow_succ]
      ring
    · rw [if_neg hsem]
      congr 2
      by_cases hg : inputs.gracePeriod < m
      · have hmod : ¬ (m - inputs.gracePeriod) % inputs.rentIncreaseInterval = 0 := by
          intro hmod; exact hsem ⟨hg, hmod⟩
        have h0 : 0 < m - inputs.gracePeriod := by omega
        have hstep := div_step (m - inputs.gracePeriod) inputs.rentIncreaseInterval h0
        rw [if_neg hmod, Nat.add_zero] at hstep
        have hnum : m + 1 - inputs.gracePeriod - 1 = m - inputs.gracePeriod := by omega
        rw [hnum, hstep]
      · have h1 : m + 1 - inputs.gracePeriod - 1 = 0 := by omega
        have h2 : m - inputs.gracePeriod - 1 = 0 := by omega
        rw [h1, h2]

/-- The schedule always has exactly `contractDuration` rows. -/
theorem calculateNPV_length (inputs : LeaseParameters) (r : ℚ) :
    (calculateNPV r inputs).cashFlowData.length = inputs.contractDuration := by
  show (runYears inputs 1 inputs.contractDuration (initialState r inputs)).cashFlowData.length = _
  rw [runYears_length]
  simp [initialState]

/-- The row at index `m` of the projection schedule is the row pushed while
processing year `m + 1`, from the state reached after `m` years. -/
theorem calculateNPV_row (inputs : LeaseParameters) (r : ℚ) (m : Nat)
    (hm : m < inputs.contractDuration) :
    (calculateNPV r inputs).cashFlowData[m]? =
      some (rowOf inputs (1 + m) (runYears inputs 1 m (initialState r inputs))) := by
  have hsplit : inputs.contractDuration = (m + 1) + (inputs.contractDuration - (m + 1)) := by
    omega
  obtain ⟨t, ht⟩ := runYears_data_ext inputs (inputs.contractDuration - (m + 1))
    (1 + (m + 1)) (runYears inputs 1 (m + 1) (initialState r inputs))
  have hdata : (calculateNPV r inputs).cashFlowData =
      (runYears inputs 1 (m + 1) (initialState r inputs)).cashFlowData ++ t := by
    show (runYears inputs 1 inputs.contractDuration (initialState r inputs)).cashFlowData = _
    conv_lhs => rw [hsplit]
    rw [runYears_add]
    exact ht
  have hlen : (runYears inputs 1 m (initialState r inputs)).cashFlowData.length = m := by
    rw [runYears_length]
    simp [initialState]
  have hlen2 : (runYears inputs 1 (m + 1) (initialState r inputs)).cashFlowData.length
      = m + 1 := by
    rw [runYears_length]
    simp [initialState]
  have hfront : (runYears inputs 1 (m + 1) (initialState r inputs)).cashFlowData =
      (runYears inputs 1 m (initialState r inputs)).cashFlowData ++
        [rowOf inputs (1 + m) (runYears inputs 1 m (initialState r inputs))] := by
    rw [runYears_succ, npvStep_data]
  rw [hdata, List.getElem?_append_left (by rw [hlen2]; omega), hfront,
    List.getElem?_append_right (le_of_eq hlen), hlen, Nat.sub_self]
  simp

/-- The rent charged in year `y` (the row at index `y - 1`): zero through
the grace period, and afterwards the base rent escalated
`(y - grace - 1) / interval` times. -/
theorem calculateNPV_rent (inputs : LeaseParameters) (r : ℚ) (y : Nat)
    (hy1 : 1 ≤ y) (hy2 : y ≤ inputs.contractDuration) :
    ∃ e : YearlyCashFlow,
      (calculateNPV r inputs).cashFlowData[y - 1]? = some e ∧
      e.year = y ∧
      e.rent = (if inputs.gracePeriod < y then
        r * (1 + inputs.rentIncreaseRate / 100) ^
          ((y - inputs.gracePeriod - 1) / inputs.rentIncreaseInterval)
        else 0) ∧
      e.discountedCashFlow = e.rent / (1 + inputs.capitalizationRate / 100) ^ y := by
  obtain ⟨m, rfl⟩ : ∃ m, y = m + 1 := ⟨y - 1, by omega⟩
  have hm : m < inputs.contractDuration := by omega
  refine ⟨rowOf inputs (1 + m) (runYears inputs 1 m (initialState r inputs)), ?_, ?_, ?_, ?_⟩
  · have h : m + 1 - 1 = m := by omega
    rw [h]
    exact calculateNPV_row inputs r m hm
  · rw [rowOf_year]; omega
  · rw [rowOf_rent]
    have hyear : (1 + m = m + 1) := by omega
    by_cases hg : inputs.gracePeriod < m + 1
    · rw [if_pos (by omega : inputs.gracePeriod < 1 + m), if_pos hg]
      have hnext : (npvStep inputs (1 + m) (runYears inputs 1 m (initialState r inputs))) =
          runYears inputs 1 (m + 1) (initialState r inputs) := by
        rw [runYears_succ]
      rw [hnext, currentRent_runYears]
      rfl
    · rw [if_neg (by omega : ¬ inputs.gracePeriod < 1 + m), if_neg hg]
  · rw [rowOf_dcf, show 1 + m = m + 1 from by omega]

/-- A zero running rent is preserved by the loop and contributes nothing:
escalation multiplies it, the grace test charges `0`, the discounted flow
is `0`. -/
theorem runYears_zero_rent (inputs : LeaseParameters) :
    ∀ (n year : Nat) (s : NPVState), s.currentRent = 0 →
      (runYears inputs year n s).currentRent = 0 ∧
        (runYears inputs year n s).npv = s.npv := by
  intro n
  induction n with
  | zero => exact fun year s h => ⟨h, rfl⟩
  | succ n ih =>
    intro year s h
    have hstep1 : (npvStep inputs year s).currentRent = 0 := by
      simp [npvStep, h]
    have hstep2 : (npvStep inputs year s).npv = s.npv := by
      simp [npvStep, h]
    have := ih (year + 1) (npvStep inputs year s) hstep1
    exact ⟨this.1, this.2.trans hstep2⟩

/-- Years at or before the grace period contribute nothing to the NPV. -/
theorem runYears_grace (inputs : LeaseParameters) :
    ∀ (n year : Nat) (s : NPVState), year + n ≤ inputs.gracePeriod + 1 →
      (runYears inputs year n s).npv = s.npv := by
  intro n
  induction n with
  | zero => exact fun year s _ => rfl
  | succ n ih =>
    intro year s h
    have hyg : ¬ inputs.gracePeriod < year := by omega
    have hstep : (npvStep inputs year s).npv = s.npv := by
      simp [npvStep, hyg]
    have := ih (year + 1) (npvStep inputs year s) (by omega)
    exact this.trans hstep

/-- Relational loop invariant for monotonicity in the base rent: a larger
running rent keeps both the running rent and the accumulated NPV larger,
provided escalation and discounting use non-negative rates. -/
theorem runYears_mono (inputs : LeaseParameters)
    (hr : 0 ≤ inputs.rentIncreaseRate) (hc : 0 ≤ inputs.capitalizationRate) :
    ∀ (n year : Nat) (s1 s2 : NPVState),
      s1.currentRent ≤ s2.currentRent → s1.npv ≤ s2.npv →
      (runYears inputs year n s1).currentRent ≤ (runYears inputs year n s2).currentRent ∧
        (runYears inputs year n s1).npv ≤ (runYears inputs year n s2).npv := by
  have hesc : (0:ℚ) ≤ 1 + inputs.rentIncreaseRate / 100 := by linarith
  intro n
  induction n with
  | zero => exact fun year s1 s2 h1 h2 => ⟨h1, h2⟩
  | succ n ih =>
    intro year s1 s2 h1 h2
    have hD : (0:ℚ) < (1 + inputs.capitalizationRate / 100) ^ year := by
      apply pow_pos; linarith
    have hcur : (npvStep inputs year s1).currentRent ≤ (npvStep inputs year s2).currentRent := by
      simp only [npvStep]
      split_ifs
      · exact mul_le_mul_of_nonneg_right h1 hesc
      · exact h1
    have hyr : (if inputs.gracePeriod < year then (npvStep inputs year s1).currentRent else 0) ≤
        (if inputs.gracePeriod < year then (npvStep inputs year s2).currentRent else 0) := by
      split_ifs
      · exact hcur
      · exact le_refl 0
    have hnpv : (npvStep inputs year s1).npv ≤ (npvStep inputs year s2).npv := by
      rw [npvStep_npv, npvStep_npv, rowOf_dcf, rowOf_dcf, rowOf_rent, rowOf_rent]
      apply add_le_add h2
      gcongr
    show (runYears inputs (year + 1) n (npvStep inputs year s1)).currentRent ≤
        (runYears inputs (year + 1) n (npvStep inputs year s2)).currentRent ∧
      (runYears inputs (year + 1) n (npvStep inputs year s1)).npv ≤
        (runYears inputs (year + 1) n (npvStep inputs year s2)).npv
    exact ih (year + 1) _ _ hcur hnpv

/-- The NPV of the projection is monotone non-decreasing in the candidate
annual rent (for non-negative escalation and discount rates). -/
theorem calculateNPV_mono (inputs : LeaseParameters)
    (hr : 0 ≤ inputs.rentIncreaseRate) (hc : 0 ≤ inputs.capitalizationRate)
    (r1 r2 : ℚ) (h : r1 ≤ r2) :
    (calculateNPV r1 inputs).npv ≤ (calculateNPV r2 inputs).npv :=
  (runYears_mono inputs hr hc inputs.contractDuration 1
    (initialState r1 inputs) (initialState r2 inputs) h (le_refl _)).2

/-- If every probed NPV is negative, the bisection never records a feasible
midpoint and returns its initial `optimalRent = 0`. -/
theorem bisectGo_neg (inputs : LeaseParameters)
    (hneg : ∀ mid : Nat, (calculateNPV (mid : ℚ) inputs).npv < 0) :
    ∀ (f low high : Nat), bisectGo inputs f low high 0 = 0 := by
  intro f
  induction f with
  | zero => exact fun low high => rfl
  | succ f ih =>
    intro low high
    simp only [bisectGo]
    split_ifs with h1 h2
    · exact absurd h2 (not_le.mpr (hneg _))
    · exact ih low ((low + high) / 2)
    · rfl

/-- When every midpoint from 25,000,000 up has non-negative NPV, the
bisection follows the climbing trace `climbGo`. -/
theorem bisectGo_climb (inputs : LeaseParameters)
    (hfeas : ∀ mid : Nat, 25000000 ≤ mid → 0 ≤ (calculateNPV (mid : ℚ) inputs).npv) :
    ∀ (f low opt : Nat), bisectGo inputs f low 50000000 opt = climbGo f low opt := by
  intro f
  induction f with
  | zero => exact fun low opt => rfl
  | succ f ih =>
    intro low opt
    simp only [bisectGo, climbGo]
    split_ifs with h1 h2
    · exact ih _ _
    · exact absurd (hfeas ((low + 50000000) / 2) (by omega)) h2
    · rfl

theorem endCum_concat :
    ∀ (l : List YearlyCashFlow) (c : ℚ) (e : YearlyCashFlow),
      endCum c (l ++ [e]) = e.cumulativeCashFlow := by
  intro l
  induction l with
  | nil => exact fun c e => rfl
  | cons f rest ih => exact fun c e => ih f.cumulativeCashFlow e

theorem cumConsistent_concat :
    ∀ (l : List YearlyCashFlow) (c : ℚ) (e : YearlyCashFlow),
      cumConsistent c l →
      e.cumulativeCashFlow = endCum c l + e.discountedCashFlow →
      cumConsistent c (l ++ [e]) := by
  intro l
  induction l with
  | nil => exact fun c e _ he => ⟨he, trivial⟩
  | cons f rest ih =>
    exact fun c e hc he => ⟨hc.1, ih f.cumulativeCashFlow e hc.2 he⟩

theorem endCum_getLast :
    ∀ (l : List YearlyCashFlow) (c : ℚ), l ≠ [] →
      ∃ e, l.getLast? = some e ∧ endCum c l = e.cumulativeCashFlow := by
  intro l
  induction l with
  | nil => exact fun c h => absurd rfl h
  | cons f rest ih =>
    intro c _
    rcases rest with _ | ⟨g, rest'⟩
    · exact ⟨f, rfl, rfl⟩
    · obtain ⟨e, he1, he2⟩ := ih f.cumulativeCashFlow (by simp)
      refine ⟨e, ?_, he2⟩
      rw [List.getLast?_cons_cons]
      exact he1

/-- Loop invariant: `npv` and `cumulativeCashFlow` always agree, the
running total equals the end of the pushed rows, and the rows form a
consistent cumulative chain seeded at `-totalDevelopmentCost`. -/
theorem npv_cum_invariant (inputs : LeaseParameters) (r : ℚ) :
    ∀ m : Nat,
      (runYears inputs 1 m (initialState r inputs)).npv =
        (runYears inputs 1 m (initialState r inputs)).cumulativeCashFlow ∧
      (runYears inputs 1 m (initialState r inputs)).cumulativeCashFlow =
        endCum (-inputs.totalDevelopmentCost)
          (runYears inputs 1 m (initialState r inputs)).cashFlowData ∧
      cumConsistent (-inputs.totalDevelopmentCost)
        (runYears inputs 1 m (initialState r inputs)).cashFlowData := by
  intro m
  induction m with
  | zero => exact ⟨rfl, rfl, trivial⟩
  | succ m ih =>
    obtain ⟨ih1, ih2, ih3⟩ := ih
    rw [runYears_succ]
    refine ⟨?_, ?_, ?_⟩
    · rw [npvStep_npv, npvStep_cum, ih1]
    · rw [npvStep_cum, npvStep_data, endCum_concat, rowOf_cum]
    · rw [npvStep_data]
      apply cumConsistent_concat _ _ _ ih3
      rw [rowOf_cum, ← ih2]

theorem paybackGo_none :
    ∀ (l : List YearlyCashFlow) (i : Nat),
      (∀ f ∈ l, f.cumulativeCashFlow < 0) → paybackGo l i = i + l.length := by
  intro l
  induction l with
  | nil => intro i _; rfl
  | cons f rest ih =>
    intro i h
    have hf : f.cumulativeCashFlow < 0 := h f (by simp)
    show (if 0 ≤ f.cumulativeCashFlow then i + 1 else paybackGo rest (i + 1)) = _
    rw [if_neg (not_le.mpr hf), ih (i + 1) (fun g hg => h g (by simp [hg]))]
    simp
    omega

theorem paybackGo_found :
    ∀ (l : List YearlyCashFlow) (i : Nat),
      (∃ f ∈ l, 0 ≤ f.cumulativeCashFlow) →
      ∃ k, k < l.length ∧ paybackGo l i = i + k + 1 ∧
        (∃ e, l[k]? = some e ∧ 0 ≤ e.cumulativeCashFlow) ∧
        (∀ j e, j < k → l[j]? = some e → e.cumulativeCashFlow < 0) := by
  intro l
  induction l with
  | nil => intro i h; simp at h
  | cons f rest ih =>
    intro i h
    by_cases hf : 0 ≤ f.cumulativeCashFlow
    · refine ⟨0, by simp, ?_, ⟨f, by simp, hf⟩, ?_⟩
      · show (if 0 ≤ f.cumulativeCashFlow then i + 1 else paybackGo rest (i + 1)) = i + 0 + 1
        rw [if_pos hf]
      · intro j e hj _
        exact absurd hj (by omega)
    · have hrest : ∃ g ∈ rest, 0 ≤ g.cumulativeCashFlow := by
        obtain ⟨g, hg, hg2⟩ := h
        rcases List.mem_cons.mp hg with rfl | hg'
        · exact absurd hg2 hf
        · exact ⟨g, hg', hg2⟩
      obtain ⟨k, hk1, hk2, hk3, hk4⟩ := ih (i + 1) hrest
      refine ⟨k + 1, by simp; omega, ?_, ?_, ?_⟩
      · show (if 0 ≤ f.cumulativeCashFlow then i + 1 else paybackGo rest (i + 1)) = i + (k + 1) + 1
        rw [if_neg hf, hk2]
        omega
      · obtain ⟨e, he1, he2⟩ := hk3
        exact ⟨e, by simpa using he1, he2⟩
      · intro j e hj hje
        rcases j with _ | j'
        · have : f = e := by simpa using hje
          rw [← this]
          exact lt_of_not_le hf
        · exact hk4 j' e (by omega) (by simpa using hje)

/-- C5: for every LeaseParameters, `calculateNPV(0, params).npv` equals
`-totalDevelopmentCost` exactly: a zero candidate rent yields an NPV of
exactly the negated development cost, since escalation multiplies the
running rent, which remains zero. -/
theorem claim_C5_zero_rent_npv (inputs : LeaseParameters) :
    (calculateNPV 0 inputs).npv = -inputs.totalDevelopmentCost :=
  (runYears_zero_rent inputs inputs.contractDuration 1 (initialState 0 inputs) rfl).2

/-- C2: in `calculateNPV`, for every charged year `y` past the grace
period, the row at index `y - 1` carries rent
`annualRent * (1 + rate/100) ^ ((y - grace - 1) / interval)`; in
particular the very first post-grace year (`y = grace + 1`) is charged the
base rent unescalated. -/
theorem claim_C2_escalation_schedule (inputs : LeaseParameters) (r : ℚ) (y : Nat)
    (hy1 : inputs.gracePeriod < y) (hy2 : y ≤ inputs.contractDuration) :
    ∃ e : YearlyCashFlow,
      (calculateNPV r inputs).cashFlowData[y - 1]? = some e ∧
      e.year = y ∧
      e.rent = r * (1 + inputs.rentIncreaseRate / 100) ^
        ((y - inputs.gracePeriod - 1) / inputs.rentIncreaseInterval) ∧
      (y = inputs.gracePeriod + 1 → e.rent = r) := by
  obtain ⟨e, h1, h2, h3, _⟩ := calculateNPV_rent inputs r y (by omega) hy2
  have hrent : e.rent = r * (1 + inputs.rentIncreaseRate / 100) ^
      ((y - inputs.gracePeriod - 1) / inputs.rentIncreaseInterval) := by
    rw [h3, if_pos hy1]
  refine ⟨e, h1, h2, hrent, ?_⟩
  intro hgy
  rw [hrent, hgy]
  have hz : inputs.gracePeriod + 1 - inputs.gracePeriod - 1 = 0 := by omega
  rw [hz, Nat.zero_div, pow_zero, mul_one]

/-- Witness for C2: in Scenario A (grace 2, interval 5, rate 10%), year 8
is the first escalated year and carries `100 * (1 + 10/100) ^ 1`. -/
theorem claim_C2_witness :
    ∃ e : YearlyCashFlow,
      (calculateNPV 100 scenarioA).cashFlowData[7]? = some e ∧
      e.year = 8 ∧
      e.rent = 100 * (1 + scenarioA.rentIncreaseRate / 100) ^
        ((8 - scenarioA.gracePeriod - 1) / scenarioA.rentIncreaseInterval) ∧
      (8 = scenarioA.gracePeriod + 1 → e.rent = 100) :=
  claim_C2_escalation_schedule scenarioA 100 8 (by decide) (by decide)

/-- C6: the projection result is well-formed: the schedule has exactly
`contractDuration` rows indexed by years `1..contractDuration`, the
cumulative column is a consistent running total seeded at
`-totalDevelopmentCost`, and the returned `npv` equals the final row's
cumulative cash flow. -/
theorem claim_C6_schedule_wellformed (inputs : LeaseParameters) (r : ℚ) :
    (calculateNPV r inputs).cashFlowData.length = inputs.contractDuration ∧
    (∀ m : Nat, m < inputs.contractDuration →
      ∃ e, (calculateNPV r inputs).cashFlowData[m]? = some e ∧ e.year = m + 1) ∧
    cumConsistent (-inputs.totalDevelopmentCost) (calculateNPV r inputs).cashFlowData ∧
    (1 ≤ inputs.contractDuration →
      ∃ e, (calculateNPV r inputs).cashFlowData.getLast? = some e ∧
        (calculateNPV r inputs).npv = e.cumulativeCashFlow) := by
  obtain ⟨h1, h2, h3⟩ := npv_cum_invariant inputs r inputs.contractDuration
  refine ⟨calculateNPV_length inputs r, ?_, h3, ?_⟩
  · intro m hm
    obtain ⟨e, he1, he2, _, _⟩ := calculateNPV_rent inputs r (m + 1) (by omega) (by omega)
    exact ⟨e, by simpa using he1, he2⟩
  · intro hdur
    have hne : (calculateNPV r inputs).cashFlowData ≠ [] := by
      have hpos : 0 < (calculateNPV r inputs).cashFlowData.length := by
        rw [calculateNPV_length]
        omega
      exact List.length_pos.mp hpos
    obtain ⟨e, he1, he2⟩ :=
      endCum_getLast (calculateNPV r inputs).cashFlowData (-inputs.totalDevelopmentCost) hne
    exact ⟨e, he1, (h1.trans h2).trans he2⟩

/-- Witness for C6 in Scenario A: 20 rows, year 3 at index 2, and the npv
is the last row's cumulative cash flow. -/
theorem claim_C6_witness :
    (calculateNPV 5 scenarioA).cashFlowData.length = scenarioA.contractDuration ∧
    (∃ e, (calculateNPV 5 scenarioA).cashFlowData[2]? = some e ∧ e.year = 3) ∧
    (∃ e, (calculateNPV 5 scenarioA).cashFlowData.getLast? = some e ∧
      (calculateNPV 5 scenarioA).npv = e.cumulativeCashFlow) :=
  ⟨(claim_C6_schedule_wellformed scenarioA 5).1,
   (claim_C6_schedule_wellformed scenarioA 5).2.1 2 (by decide),
   (claim_C6_schedule_wellformed scenarioA 5).2.2.2 (by decide)⟩

/-- C7: rows inside the grace period carry zero rent; when the grace
period covers the whole contract the NPV is exactly
`-totalDevelopmentCost` for every candidate rent, and `findOptimalRent`
terminates with 0. -/
theorem claim_C7_grace_degenerate (inputs : LeaseParameters) (r : ℚ) :
    (∀ e ∈ (calculateNPV r inputs).cashFlowData,
      e.year ≤ inputs.gracePeriod → e.rent = 0) ∧
    (inputs.contractDuration ≤ inputs.gracePeriod →
      (calculateNPV r inputs).npv = -inputs.totalDevelopmentCost) ∧
    (inputs.contractDuration ≤ inputs.gracePeriod → 0 < inputs.totalDevelopmentCost →
      findOptimalRent inputs = 0) := by
  refine ⟨?_, ?_, ?_⟩
  · intro e he hey
    obtain ⟨m, hm⟩ := List.mem_iff_getElem?.mp he
    have hmd : m < inputs.contractDuration := by
      have := (List.getElem?_eq_some.mp hm).1
      rwa [calculateNPV_length] at this
    obtain ⟨e', h1, h2, h3, _⟩ := calculateNPV_rent inputs r (m + 1) (by omega) (by omega)
    have heq : e = e' := by
      have h1' : (calculateNPV r inputs).cashFlowData[m]? = some e' := by simpa using h1
      exact Option.some.inj (hm.symm.trans h1')
    have hy : e'.year ≤ inputs.gracePeriod := heq ▸ hey
    rw [h2] at hy
    rw [heq, h3, if_neg (by omega)]
  · intro hd
    exact runYears_grace inputs inputs.contractDuration 1 (initialState r inputs) (by omega)
  · intro hd hcost
    have hneg : ∀ mid : Nat, (calculateNPV (mid : ℚ) inputs).npv < 0 := by
      intro mid
      have h : (calculateNPV (mid : ℚ) inputs).npv = -inputs.totalDevelopmentCost :=
        runYears_grace inputs inputs.contractDuration 1 (initialState (mid : ℚ) inputs) (by omega)
      rw [h]
      linarith
    exact bisectGo_neg inputs hneg 50 0 50000000

/-- Witness for C7 at the degenerate Scenario B (duration 3 inside a
5-year grace period): every projection collapses to `-cost` and the
search returns 0. -/
theorem claim_C7_witness :
    (calculateNPV 7 scenarioB).npv = -scenarioB.totalDevelopmentCost ∧
    findOptimalRent scenarioB = 0 :=
  ⟨(claim_C7_grace_degenerate scenarioB 7).2.1 (by decide),
   (claim_C7_grace_degenerate scenarioB 7).2.2 (by decide) (by decide)⟩

/-- C4: for fixed parameters with non-negative escalation and
capitalization rates, the projected NPV is monotone non-decreasing in the
candidate annual rent. -/
theorem claim_C4_monotonicity (inputs : LeaseParameters) (r1 r2 : ℚ)
    (hr : 0 ≤ inputs.rentIncreaseRate) (hc : 0 ≤ inputs.capitalizationRate)
    (h : r1 ≤ r2) :
    (calculateNPV r1 inputs).npv ≤ (calculateNPV r2 inputs).npv :=
  calculateNPV_mono inputs hr hc r1 r2 h

/-- Witness for C4 at Scenario A with rents 3 ≤ 4. -/
theorem claim_C4_witness :
    (calculateNPV 3 scenarioA).npv ≤ (calculateNPV 4 scenarioA).npv :=
  claim_C4_monotonicity scenarioA 3 4 (by decide) (by decide) (by decide)

/-- C10 (implicit): for a non-negative base rent and non-negative
escalation rate, every scheduled rent is non-negative, and from the first
post-grace year onward the nominal rent is non-decreasing year over
year. -/
theorem claim_C10_rent_nonneg_monotone (inputs : LeaseParameters) (r : ℚ)
    (hr0 : 0 ≤ r) (hrate : 0 ≤ inputs.rentIncreaseRate) :
    (∀ e ∈ (calculateNPV r inputs).cashFlowData, 0 ≤ e.rent) ∧
    (∀ y : Nat, inputs.gracePeriod < y → y + 1 ≤ inputs.contractDuration →
      rentAt (calculateNPV r inputs) y ≤ rentAt (calculateNPV r inputs) (y + 1)) := by
  have hesc : (1:ℚ) ≤ 1 + inputs.rentIncreaseRate / 100 := by linarith
  refine ⟨?_, ?_⟩
  · intro e he
    obtain ⟨m, hm⟩ := List.mem_iff_getElem?.mp he
    have hmd : m < inputs.contractDuration := by
      have := (List.getElem?_eq_some.mp hm).1
      rwa [calculateNPV_length] at this
    obtain ⟨e', h1, _, h3, _⟩ := calculateNPV_rent inputs r (m + 1) (by omega) (by omega)
    have heq : e = e' := by
      have h1' : (calculateNPV r inputs).cashFlowData[m]? = some e' := by simpa using h1
      exact Option.some.inj (hm.symm.trans h1')
    rw [heq, h3]
    split_ifs
    · exact mul_nonneg hr0 (pow_nonneg (by linarith) _)
    · exact le_refl 0
  · intro y hgy hy1
    obtain ⟨f1, hf1, _, hf1r, _⟩ := calculateNPV_rent inputs r y (by omega) (by omega)
    obtain ⟨f2, hf2, _, hf2r, _⟩ := calculateNPV_rent inputs r (y + 1) (by omega) (by omega)
    have hg1 : rentAt (calculateNPV r inputs) y = f1.rent := by
      simp [rentAt, hf1]
    have hf2' : (calculateNPV r inputs).cashFlowData[y]? = some f2 := by
      simpa using hf2
    have hg2 : rentAt (calculateNPV r inputs) (y + 1) = f2.rent := by
      simp [rentAt, hf2']
    rw [hg1, hg2, hf1r, hf2r, if_pos hgy, if_pos (by omega)]
    apply mul_le_mul_of_nonneg_left ?_ hr0
    apply pow_le_pow_right₀ hesc
    apply Nat.div_le_div_right
    omega

/-- Witness for C10 at Scenario A: the rent of year 8 is at least the
rent of year 7 (year 8 is an escalation year). -/
theorem claim_C10_witness :
    rentAt (calculateNPV 100 scenarioA) 7 ≤ rentAt (calculateNPV 100 scenarioA) 8 :=
  (claim_C10_rent_nonneg_monotone scenarioA 100 (by decide) (by decide)).2 7
    (by decide) (by decide)

/-- C8: for every non-empty schedule, `calculatePaybackPeriod` returns the
smallest 1-indexed position whose row has non-negative cumulative cash
flow, and the schedule's length when no row does. -/
theorem claim_C8_payback (l : List YearlyCashFlow) (hne : l ≠ []) :
    ((∃ f ∈ l, 0 ≤ f.cumulativeCashFlow) →
      ∃ k, k < l.length ∧ calculatePaybackPeriod l = k + 1 ∧
        (∃ e, l[k]? = some e ∧ 0 ≤ e.cumulativeCashFlow) ∧
        (∀ j e, j < k → l[j]? = some e → e.cumulativeCashFlow < 0)) ∧
    ((∀ f ∈ l, f.cumulativeCashFlow < 0) → calculatePaybackPeriod l = l.length) := by
  constructor
  · intro h
    obtain ⟨k, h1, h2, h3, h4⟩ := paybackGo_found l 0 h
    refine ⟨k, h1, ?_, h3, h4⟩
    rw [calculatePaybackPeriod, h2]
    omega
  · intro h
    have := paybackGo_none l 0 h
    rw [calculatePaybackPeriod, this]
    omega

/-- Witness for C8: a two-row schedule that never reaches a non-negative
cumulative cash flow pays back in `2 = length` years. -/
theorem claim_C8_witness :
    calculatePaybackPeriod
      [{ year := 1, rent := 0, discountedCashFlow := -5, cumulativeCashFlow := -5 },
       { year := 2, rent := 3, discountedCashFlow := 2, cumulativeCashFlow := -3 }] = 2 :=
  (claim_C8_payback _ (by simp)).2 (by decide)

/-- C9: the entry point rejects a non-positive development cost or a
non-positive contract duration (returning no results), and otherwise
computes the search, projection and derived metrics. -/
theorem claim_C9_validation (inputs : LeaseParameters) :
    ((inputs.totalDevelopmentCost ≤ 0 ∨ inputs.contractDuration = 0) →
      calculateOptimalRent inputs = none) ∧
    (0 < inputs.totalDevelopmentCost → inputs.contractDuration ≠ 0 →
      calculateOptimalRent inputs = some
        { optimalRent := findOptimalRent inputs
          npv := (calculateNPV ((findOptimalRent inputs : ℕ) : ℚ) inputs).npv
          cashFlowData := (calculateNPV ((findOptimalRent inputs : ℕ) : ℚ) inputs).cashFlowData
          paybackPeriod := calculatePaybackPeriod
            (calculateNPV ((findOptimalRent inputs : ℕ) : ℚ) inputs).cashFlowData
          annualReturn := calculateAnnualReturn ((findOptimalRent inputs : ℕ) : ℚ)
            inputs.totalDevelopmentCost }) := by
  constructor
  · rintro (h | h)
    · simp [calculateOptimalRent, h]
    · by_cases hc : inputs.totalDevelopmentCost ≤ 0
      · simp [calculateOptimalRent, hc]
      · simp [calculateOptimalRent, hc, h]
  · intro h1 h2
    simp [calculateOptimalRent, not_le.mpr h1, Nat.le_zero, h2]

/-- Witness for C9: a zero contract duration is rejected, and the
degenerate-but-valid Scenario B produces a full result record. -/
theorem claim_C9_witness :
    calculateOptimalRent invalidParams = none ∧
    calculateOptimalRent scenarioB = some
      { optimalRent := findOptimalRent scenarioB
        npv := (calculateNPV ((findOptimalRent scenarioB : ℕ) : ℚ) scenarioB).npv
        cashFlowData := (calculateNPV ((findOptimalRent scenarioB : ℕ) : ℚ) scenarioB).cashFlowData
        paybackPeriod := calculatePaybackPeriod
          (calculateNPV ((findOptimalRent scenarioB : ℕ) : ℚ) scenarioB).cashFlowData
        annualReturn := calculateAnnualReturn ((findOptimalRent scenarioB : ℕ) : ℚ)
          scenarioB.totalDevelopmentCost } :=
  ⟨(claim_C9_validation invalidParams).1 (Or.inr rfl),
   (claim_C9_validation scenarioB).2 (by decide) (by decide)⟩

/-- Counterexample to C1: Scenario A is a valid parameter set with a
feasible positive rent (25,000,000 has non-negative NPV), yet the value
returned by `findOptimalRent` is 49,999,237 and the NPV at
`r* + 1000` is not negative — the search does not bracket a breakeven
rent from above. -/
theorem claim_C1_counterexample :
    0 ≤ (calculateNPV 25000000 scenarioA).npv ∧
    findOptimalRent scenarioA = 49999237 ∧
    ¬ (calculateNPV ((49999237 : ℚ) + 1000) scenarioA).npv < 0 := by
  with_unfolding_all decide

/-- C1 (amended): whenever the escalation and capitalization rates are
non-negative and the first bisection midpoint 25,000,000 already has
non-negative NPV, `findOptimalRent` returns 49,999,237 — the point within
the 1000-unit tolerance of the fixed 50,000,000 search ceiling — and both
the NPV at the returned rent and the NPV at the returned rent plus 1000
are non-negative: the bisection climbs to the cap instead of locating the
largest rent whose successor band turns the NPV negative. -/
theorem claim_C1_amended (inputs : LeaseParameters)
    (hr : 0 ≤ inputs.rentIncreaseRate) (hc : 0 ≤ inputs.capitalizationRate)
    (hfeas25 : 0 ≤ (calculateNPV 25000000 inputs).npv) :
    findOptimalRent inputs = 49999237 ∧
    0 ≤ (calculateNPV 49999237 inputs).npv ∧
    0 ≤ (calculateNPV ((49999237 : ℚ) + 1000) inputs).npv := by
  have hfeas : ∀ mid : Nat, 25000000 ≤ mid →
      0 ≤ (calculateNPV (mid : ℚ) inputs).npv := by
    intro mid hm
    refine le_trans hfeas25 (calculateNPV_mono inputs hr hc 25000000 (mid : ℚ) ?_)
    exact_mod_cast hm
  refine ⟨?_, ?_, ?_⟩
  · show bisectGo inputs 50 0 50000000 0 = 49999237
    rw [bisectGo_climb inputs hfeas]
    rfl
  · have h := hfeas 49999237 (by omega)
    have hcast : ((49999237 : ℕ) : ℚ) = (49999237 : ℚ) := by norm_num
    rwa [hcast] at h
  · have h := hfeas 50000237 (by omega)
    have hcast : ((50000237 : ℕ) : ℚ) = (49999237 : ℚ) + 1000 := by norm_num
    rwa [hcast] at h

/-- Witness for C1 (amended) at Scenario A. -/
theorem claim_C1_amended_witness : findOptimalRent scenarioA = 49999237 :=
  (claim_C1_amended scenarioA (by decide) (by decide)
    (by with_unfolding_all decide)).1

/-- Counterexample to C3: at the Scenario A inputs, `findOptimalRent`
returns 49,999,237 — an eight-digit value, not a six-to-seven-digit one —
and the NPV re-invoked at that rent exceeds 1000 instead of lying within
the [-1000, 1000] tolerance band. -/
theorem claim_C3_counterexample :
    findOptimalRent scenarioA = 49999237 ∧
    ¬ (findOptimalRent scenarioA ≤ 9999999) ∧
    ¬ ((calculateNPV ((findOptimalRent scenarioA : ℕ) : ℚ) scenarioA).npv ≤ 1000) := by
  with_unfolding_all decide

/-- C3 (amended): at the Scenario A inputs, `findOptimalRent` returns
49,999,237 (an eight-digit value within the 1000-unit tolerance of the
50,000,000 search ceiling); the NPV re-invoked at that rent is positive
and far above the 1000-unit tolerance band; and the payback period of the
resulting schedule is 5, which lies between 1 and 20 inclusive. -/
theorem claim_C3_amended :
    findOptimalRent scenarioA = 49999237 ∧
    9999999 < findOptimalRent scenarioA ∧
    1000 < (calculateNPV ((findOptimalRent scenarioA : ℕ) : ℚ) scenarioA).npv ∧
    calculatePaybackPeriod
      (calculateNPV ((findOptimalRent scenarioA : ℕ) : ℚ) scenarioA).cashFlowData = 5 ∧
    1 ≤ calculatePaybackPeriod
      (calculateNPV ((findOptimalRent scenarioA : ℕ) : ℚ) scenarioA).cashFlowData ∧
    calculatePaybackPeriod
      (calculateNPV ((findOptimalRent scenarioA : ℕ) : ℚ) scenarioA).cashFlowData ≤ 20 := by
  with_unfolding_all decide

end RentCalculator
